import Mathlib

/-
  Verification of the photo-gallery thumbnail worker.

  The development shallowly embeds the two source files of the repository:
  - the object-store adapter (package bucket: Bucket.Put, Bucket.Get),
  - main.go (broker topology declaration, component wiring, and the
    lifecycle loop with its two goroutines).
-/

/- ===== Object store adapter (package bucket) ===== -/

/-- One read step of an io.Reader: either a chunk of bytes or a read error.
A stream is a finite list of such steps; io.Copy consumes them in order. -/
inductive ReadChunk where
  | bytes (bs : List Nat)
  | fail (e : String)
deriving DecidableEq, Repr

/-- io.Copy(writer, reader): copies chunks until end of stream or the first
read error; returns the copied bytes on success, the read error otherwise. -/
def ioCopy : List ReadChunk → Except String (List Nat)
  | [] => Except.ok []
  | ReadChunk.bytes bs :: rest => (ioCopy rest).map (fun tl => bs ++ tl)
  | ReadChunk.fail e :: _ => Except.error e

/-- thumb.Thumbnail as used by Bucket.Put: a filename and a byte stream. -/
structure Thumbnail where
  filename : String
  reader : List ReadChunk
deriving DecidableEq, Repr

/-- The backend object namespace: a list of (object name, content) pairs. -/
abbrev ObjectSpace := List (String × List Nat)

/-- Modelled from the spec: committing a written object into the backend
namespace. The backend (a cloud bucket API) keys objects by name; per the
spec, "storage Put for an existing key overwrites, not duplicates", so the
commit replaces any previous binding of the same name. -/
def insertObject (objects : ObjectSpace) (k : String) (v : List Nat) : ObjectSpace :=
  (k, v) :: objects.filter (fun p => !(p.1 == k))

/-- Reading an object back from the backend namespace by name. -/
def lookupObject (objects : ObjectSpace) (k : String) : Option (List Nat) :=
  (objects.find? (fun p => p.1 == k)).map (fun p => p.2)

/-- The observable outcome of one Bucket.Put call: the Go error return, the
backend namespace afterwards, and whether writer.Close was invoked. -/
structure PutOutcome where
  result : Except String Unit
  objects : ObjectSpace
  closeInvoked : Bool

/-- Bucket.Put: obtains a writer for the object named image.Filename, copies
the stream into it, and returns the copy error without closing on copy
failure; otherwise returns the result of writer.Close. The parameter
closeErr is the backend outcome of that Close call (Modelled from the spec:
the backend writer commits the object only when Close succeeds, so that "a
copy error or a close error both count as failure" and leave no partial
state). -/
def Bucket.Put (objects : ObjectSpace) (image : Thumbnail)
    (closeErr : Option String) : PutOutcome :=
  match ioCopy image.reader with
  | Except.error e => ⟨Except.error e, objects, false⟩
  | Except.ok bs =>
    match closeErr with
    | some e => ⟨Except.error e, objects, true⟩
    | none => ⟨Except.ok (), insertObject objects image.filename bs, true⟩

/-- Bucket.Get: obtains a reader for the object of that filename; the backend
returns the stored content, or an error when no such object exists. -/
def Bucket.Get (objects : ObjectSpace) (filename : String) : Except String (List Nat) :=
  match lookupObject objects filename with
  | some v => Except.ok v
  | none => Except.error ("storage: object does not exist")

example : Bucket.Put [] ⟨"a.jpg", [ReadChunk.bytes [1, 2]]⟩ none =
    ⟨Except.ok (), [("a.jpg", [1, 2])], true⟩ := rfl

example : Bucket.Put [] ⟨"a.jpg", [ReadChunk.fail ("eof")]⟩ none =
    ⟨Except.error ("eof"), [], false⟩ := rfl

example : Bucket.Get [("a.jpg", [1, 2])] "a.jpg" = Except.ok [1, 2] := rfl

/- ===== Broker topology (main.go: declareExchange, declareAndBindQueue) ===== -/

/-- The constant fanoutExchangeKind of main.go. -/
def fanoutExchangeKind : String := "fanout"

/-- The arguments main.go passes to channel.ExchangeDeclare, in order:
name, kind, durable, autoDelete, internal, noWait. -/
structure ExchangeDecl where
  name : String
  kind : String
  durable : Bool
  autoDelete : Bool
  internal : Bool
  noWait : Bool
deriving DecidableEq, Repr

/-- The arguments main.go passes to channel.QueueDeclare, in order:
name, durable, autoDelete, exclusive, noWait. -/
structure QueueDecl where
  name : String
  durable : Bool
  autoDelete : Bool
  exclusive : Bool
  noWait : Bool
deriving DecidableEq, Repr

/-- The arguments main.go passes to channel.QueueBind, in order:
queue name, routing key, exchange, noWait. -/
structure QueueBindDecl where
  queueName : String
  routingKey : String
  exchange : String
  noWait : Bool
deriving DecidableEq, Repr

/-- declareExchange (main.go:142-152): declares the named exchange with kind
fanout, durable true, autoDelete false, internal false, noWait false. -/
def declareExchange (exchangeName : String) : ExchangeDecl :=
  { name := exchangeName
    kind := fanoutExchangeKind
    durable := true
    autoDelete := false
    internal := false
    noWait := false }

/-- declareAndBindQueue (main.go:154-167): declares the queue durable,
non-auto-deleted, non-exclusive, and binds it to the exchange with an empty
routing key. -/
def declareAndBindQueue (queue exchange : String) : QueueDecl × QueueBindDecl :=
  ({ name := queue, durable := true, autoDelete := false,
     exclusive := false, noWait := false },
   { queueName := queue, routingKey := "", exchange := exchange, noWait := false })

/-- The topology operations main performs at startup (main.go:83-94):
declareExchange on the bucket exchange, declareExchange on the worker
exchange, then declareAndBindQueue binding the queue to the bucket
exchange. -/
def mainTopology (bucketExchange workerExchange queueName : String) :
    List ExchangeDecl × QueueDecl × QueueBindDecl :=
  ([declareExchange bucketExchange, declareExchange workerExchange],
   declareAndBindQueue queueName bucketExchange)

/- ===== Component wiring (main.go:45-129) ===== -/

/-- The environment variables main reads. -/
structure Env where
  dbHost : String
  dbUser : String
  dbPassword : String
  dbName : String
  dbPort : String
  minioEndpoint : String
  photosBucket : String
  thumbsBucket : String
  queueName : String
  bucketExchangeName : String
  workerExchangeName : String
deriving DecidableEq, Repr

/-- The dsn string main builds (main.go:52-53). -/
def dsnString (env : Env) : String :=
  "host=" ++ env.dbHost ++ " user=" ++ env.dbUser ++ " password=" ++ env.dbPassword
    ++ " dbname=" ++ env.dbName ++ " port=" ++ env.dbPort ++ " sslmode=disable"

/-- A concrete dependency main constructs and passes to a component. -/
inductive Dependency where
  | imageDatabase (dsn : String)
  | minioStorage (endpoint : String) (bucket : String)
deriving DecidableEq, Repr

/-- The dependency wiring main performs (main.go:96-108, 122-129): which
constructed object each component receives. -/
structure MainWiring where
  photoStorage : Dependency
  thumbStorage : Dependency
  handlerBackingDep : Dependency
  publisherExchange : String
deriving DecidableEq, Repr

/-- buildWiring: the construction main performs. db is image.NewDatabase over
the database connection (main.go:96); the worker bundle receives minio
storages over the photos and thumbs buckets (main.go:100-101); the HTTP
handler api.GetThumbsHandler receives db (main.go:125); the publisher targets
the worker exchange (main.go:98). -/
def buildWiring (env : Env) : MainWiring :=
  { photoStorage := Dependency.minioStorage env.minioEndpoint env.photosBucket
    thumbStorage := Dependency.minioStorage env.minioEndpoint env.thumbsBucket
    handlerBackingDep := Dependency.imageDatabase (dsnString env)
    publisherExchange := env.workerExchangeName }

/- ===== Lifecycle (main.go:110-139 and the two goroutines) ===== -/

/-- The observable process state after startup: whether the shared context
has been cancelled, how many interrupt signals sit in the buffered signals
channel, the exit status once the process has exited, whether the deferred
Close calls on the broker channel and connection (main.go:71-81) have run,
what the subscriber goroutine has logged, and whether the shutdown message
was logged. -/
structure ProcState where
  ctxDone : Bool
  pendingSignals : Nat
  exitCode : Option Nat
  defersRan : Bool
  subscriberLog : List String
  shutdownLogged : Bool
deriving DecidableEq, Repr

/-- The state right after main launches the two goroutines and enters the
supervisory loop (main.go:131). -/
def initState : ProcState :=
  { ctxDone := false
    pendingSignals := 0
    exitCode := none
    defersRan := false
    subscriberLog := []
    shutdownLogged := false }

/-- log.Fatalln: prints and calls os.Exit(1). os.Exit terminates the process
immediately; deferred functions are NOT run, so defersRan is unchanged. -/
def logFatalln (s : ProcState) : ProcState :=
  { s with exitCode := some 1 }

/-- The events that can reach the process after startup. -/
inductive Event where
  | deliverInterrupt
  | loopIter
  | subErr (e : String)
  | httpErr (e : String)
deriving DecidableEq, Repr

/-- One iteration of the for/select supervisory loop (main.go:131-139): if a
signal is pending, receive it, log "shutting down..." and cancel the shared
context; otherwise, if the context is done, call log.Fatalln(ctx.Err());
otherwise block (no ready case: no state change in this step). When both
cases are ready Go picks one at random; this model takes the signal first,
and the ctx.Done case then fires on the following iteration, which does not
change the reachable exit statuses. -/
def mainLoopIter (s : ProcState) : ProcState :=
  if 0 < s.pendingSignals then
    { s with pendingSignals := s.pendingSignals - 1, shutdownLogged := true,
             ctxDone := true }
  else if s.ctxDone then
    logFatalln s
  else
    s

/-- One step of the whole process: events only have an effect while the
process has not exited. deliverInterrupt is the OS placing os.Interrupt in
the buffered signals channel (main.go:110-111); subErr e is the subscriber
goroutine receiving error e from Subscribe, which it handles with
log.Println(err) only (main.go:115-120); httpErr e is engine.Run returning
error e, which the HTTP goroutine handles with log.Fatalln(err)
(main.go:122-129). -/
def step (s : ProcState) : Event → ProcState
  | Event.deliverInterrupt =>
    if s.exitCode.isSome then s
    else { s with pendingSignals := s.pendingSignals + 1 }
  | Event.loopIter =>
    if s.exitCode.isSome then s else mainLoopIter s
  | Event.subErr e =>
    if s.exitCode.isSome then s
    else { s with subscriberLog := s.subscriberLog ++ [e] }
  | Event.httpErr _ =>
    if s.exitCode.isSome then s else logFatalln s

/-- A run of the process: the successive effect of a list of events. -/
def run (s : ProcState) (evs : List Event) : ProcState :=
  evs.foldl step s

/-- Whether an event can ever make the process exit or the context done:
only an interrupt delivery or an HTTP server error can. -/
def Event.isFatalCapable : Event → Bool
  | Event.deliverInterrupt => true
  | Event.httpErr _ => true
  | Event.loopIter => false
  | Event.subErr _ => false

/-- A concrete environment used to evaluate the wiring. -/
def sampleEnv : Env :=
  { dbHost := "localhost", dbUser := "postgres", dbPassword := "pw",
    dbName := "gallery", dbPort := "5432", minioEndpoint := "localhost:9000",
    photosBucket := "photos", thumbsBucket := "thumbs",
    queueName := "thumbs.worker", bucketExchangeName := "photos.bucket",
    workerExchangeName := "thumbs.worker.ex" }

/- ===== Helper lemmas ===== -/

lemma run_nil (s : ProcState) : run s [] = s := rfl

lemma run_cons (s : ProcState) (ev : Event) (evs : List Event) :
    run s (ev :: evs) = run (step s ev) evs := rfl

lemma step_defersRan (s : ProcState) (ev : Event) :
    (step s ev).defersRan = s.defersRan := by
  cases ev <;> simp only [step, mainLoopIter, logFatalln] <;>
    repeat' first | rfl | split

lemma run_defersRan (evs : List Event) :
    ∀ s : ProcState, (run s evs).defersRan = s.defersRan := by
  induction evs with
  | nil => intro s; rfl
  | cons ev rest ih =>
    intro s
    rw [run_cons, ih, step_defersRan]

lemma lookupObject_insertObject (objects : ObjectSpace) (k : String)
    (v : List Nat) :
    lookupObject (insertObject objects k v) k = some v := by
  simp [lookupObject, insertObject, List.find?]

lemma filter_insertObject (objects : ObjectSpace) (k : String) (v : List Nat) :
    (insertObject objects k v).filter (fun p => p.1 == k) = [(k, v)] := by
  simp only [insertObject, List.filter_cons, beq_self_eq_true, if_pos,
    List.filter_filter]
  simp

lemma run_quiet (evs : List Event) :
    ∀ s : ProcState, s.exitCode = none → s.ctxDone = false →
    s.pendingSignals = 0 →
    evs.all (fun ev => !Event.isFatalCapable ev) = true →
    (run s evs).exitCode = none ∧ (run s evs).ctxDone = false ∧
      (run s evs).pendingSignals = 0 := by
  induction evs with
  | nil => intro s h1 h2 h3 _; exact ⟨h1, h2, h3⟩
  | cons ev rest ih =>
    intro s h1 h2 h3 hall
    rw [List.all_cons, Bool.and_eq_true] at hall
    rw [run_cons]
    cases ev with
    | deliverInterrupt => simp [Event.isFatalCapable] at hall
    | httpErr e => simp [Event.isFatalCapable] at hall
    | loopIter =>
      have hstep : step s Event.loopIter = s := by
        simp [step, h1, mainLoopIter, h2, h3]
      rw [hstep]
      exact ih s h1 h2 h3 hall.2
    | subErr e =>
      have hstep : step s (Event.subErr e) =
          { s with subscriberLog := s.subscriberLog ++ [e] } := by
        simp [step, h1]
      rw [hstep]
      exact ih _ h1 h2 h3 hall.2

/- ===== Claim theorems ===== -/

/-- C1: the claim fails on the code. After the OS interrupt is delivered, the
supervisory loop logs "shutting down..." and cancels the shared context, but
the loop then continues: its next iteration takes the ctx.Done branch and
calls log.Fatalln(ctx.Err()), so the process exits with status 1, not 0.
Operator-triggered shutdown and internal failure thus share the same
non-zero exit, contradicting the claimed asymmetry. -/
theorem interrupt_exits_nonzero :
    (run initState
      [Event.deliverInterrupt, Event.loopIter, Event.loopIter]).shutdownLogged
        = true ∧
    (run initState
      [Event.deliverInterrupt, Event.loopIter, Event.loopIter]).exitCode
        = some 1 :=
  ⟨rfl, rfl⟩

/-- C2 counterexample: the subscriber goroutine receives the transport error
"channel closed" from Subscribe; the error is only appended to the
subscriber's log (log.Println), the shared context is not made done, and the
process has not exited after further supervisory-loop iterations — the error
is not surfaced as fatal, contrary to the claim. -/
theorem subscriber_error_swallowed :
    (run initState [Event.subErr ("channel closed"), Event.loopIter,
      Event.loopIter, Event.loopIter]).subscriberLog = ["channel closed"] ∧
    (run initState [Event.subErr ("channel closed"), Event.loopIter,
      Event.loopIter, Event.loopIter]).ctxDone = false ∧
    (run initState [Event.subErr ("channel closed"), Event.loopIter,
      Event.loopIter, Event.loopIter]).exitCode = none :=
  ⟨rfl, rfl, rfl⟩

/-- C2 amended: a transport-level error that terminates the Subscribe loop is
handled entirely inside the subscriber goroutine with log.Println: it is
appended to that goroutine's log and nothing else changes, and in any run
whose events are only subscriber errors and supervisory-loop iterations the
shared context never becomes done and the process never exits. -/
theorem subscriber_error_not_fatal (evs : List Event)
    (hq : evs.all (fun ev => !Event.isFatalCapable ev) = true) :
    (∀ s : ProcState, s.exitCode = none → ∀ e,
      step s (Event.subErr e) =
        { s with subscriberLog := s.subscriberLog ++ [e] }) ∧
    (run initState evs).exitCode = none ∧ (run initState evs).ctxDone = false := by
  refine ⟨fun s h1 e => by simp [step, h1], ?_, ?_⟩
  · exact (run_quiet evs initState rfl rfl rfl hq).1
  · exact (run_quiet evs initState rfl rfl rfl hq).2.1

/-- C2 witness: the amended theorem at the concrete run of one broker
disconnect followed by two loop iterations. -/
theorem subscriber_error_not_fatal_witness :
    (run initState [Event.subErr ("broker disconnect"), Event.loopIter,
      Event.loopIter]).exitCode = none ∧
    (run initState [Event.subErr ("broker disconnect"), Event.loopIter,
      Event.loopIter]).ctxDone = false :=
  ⟨(subscriber_error_not_fatal [Event.subErr ("broker disconnect"),
      Event.loopIter, Event.loopIter] rfl).2.1,
   (subscriber_error_not_fatal [Event.subErr ("broker disconnect"),
      Event.loopIter, Event.loopIter] rfl).2.2⟩

/-- C3: the claim fails on the code. The deferred Close calls on the broker
channel and connection (main.go:71-81) run only on a normal return of main,
but after the supervisory loop starts, every exit goes through log.Fatalln,
that is os.Exit(1), which skips deferred functions: in every run the defers
never execute, and in particular the interrupt-triggered exit terminates the
process with the channel and connection left unclosed. -/
theorem exit_skips_deferred_closes :
    (∀ evs : List Event, (run initState evs).defersRan = false) ∧
    (run initState
      [Event.deliverInterrupt, Event.loopIter, Event.loopIter]).exitCode
        = some 1 ∧
    (run initState
      [Event.deliverInterrupt, Event.loopIter, Event.loopIter]).defersRan
        = false :=
  ⟨fun evs => run_defersRan evs initState, rfl, rfl⟩

/-- C4 counterexample: at a concrete environment, the backing dependency main
wires into the retrieval handler (api.GetThumbsHandler at main.go:125) is
the image database over the database connection, not the thumbs-bucket
object store the claim names. -/
theorem handler_not_wired_to_thumbs_store :
    (buildWiring sampleEnv).handlerBackingDep =
      Dependency.imageDatabase
        ("host=localhost user=postgres password=pw dbname=gallery port=5432 sslmode=disable") ∧
    (buildWiring sampleEnv).handlerBackingDep ≠ (buildWiring sampleEnv).thumbStorage ∧
    (buildWiring sampleEnv).handlerBackingDep ≠
      Dependency.minioStorage sampleEnv.minioEndpoint sampleEnv.thumbsBucket :=
  ⟨rfl, by decide, by decide⟩

/-- C4 amended: the Lifecycle Controller wires the retrieval handler with the
image database built over the database connection; the thumbs-bucket object
store is wired into the worker bundle's ThumbStorage instead, and the
handler's backing dependency is never an object store. -/
theorem handler_wired_to_database (env : Env) :
    (buildWiring env).handlerBackingDep =
      Dependency.imageDatabase (dsnString env) ∧
    (buildWiring env).thumbStorage =
      Dependency.minioStorage env.minioEndpoint env.thumbsBucket ∧
    (buildWiring env).handlerBackingDep ≠
      Dependency.minioStorage env.minioEndpoint env.thumbsBucket := by
  refine ⟨rfl, rfl, ?_⟩
  simp [buildWiring]

/-- C4 amended witness: the amended theorem evaluated at the concrete sample
environment. -/
theorem handler_wired_to_database_witness :
    (buildWiring sampleEnv).handlerBackingDep =
      Dependency.imageDatabase (dsnString sampleEnv) :=
  (handler_wired_to_database sampleEnv).1

/-- C5: Bucket.Put returns success exactly when both the full copy of the
stream and the writer Close succeed; a copy error is returned as Put's
error, and so is a close error after a successful copy. -/
theorem put_success_requires_copy_and_close (objects : ObjectSpace)
    (image : Thumbnail) (closeErr : Option String) :
    ((Bucket.Put objects image closeErr).result = Except.ok () ↔
      (∃ bs, ioCopy image.reader = Except.ok bs) ∧ closeErr = none) ∧
    (∀ e, ioCopy image.reader = Except.error e →
      (Bucket.Put objects image closeErr).result = Except.error e) ∧
    (∀ bs e, ioCopy image.reader = Except.ok bs → closeErr = some e →
      (Bucket.Put objects image closeErr).result = Except.error e) := by
  rcases h : ioCopy image.reader with e | bs <;>
    rcases closeErr with _ | ce <;> simp [Bucket.Put, h]

/-- C5 witness: a put whose stream fails returns that copy error, and a put
with a failing close returns that close error. -/
theorem put_success_requires_copy_and_close_witness :
    (Bucket.Put [] ⟨"a.jpg", [ReadChunk.fail ("read: reset")]⟩ none).result =
      Except.error ("read: reset") ∧
    (Bucket.Put [] ⟨"a.jpg", [ReadChunk.bytes [7]]⟩ (some ("flush failed"))).result =
      Except.error ("flush failed") :=
  ⟨(put_success_requires_copy_and_close [] ⟨"a.jpg", [ReadChunk.fail ("read: reset")]⟩
      none).2.1 ("read: reset") rfl,
   (put_success_requires_copy_and_close [] ⟨"a.jpg", [ReadChunk.bytes [7]]⟩
      (some ("flush failed"))).2.2 [7] "flush failed" rfl rfl⟩

/-- C6: for all exchange and queue names, the topology setup declares exactly
two exchanges, both of kind fanout, durable and non-auto-deleted, named
after the bucket and worker exchanges; and exactly one queue, durable,
non-exclusive and non-auto-deleted, bound to the bucket (inbound) exchange
with an empty routing key. -/
theorem topology_shape (bucketExchange workerExchange queueName : String) :
    (mainTopology bucketExchange workerExchange queueName).1.length = 2 ∧
    (mainTopology bucketExchange workerExchange queueName).1.all
      (fun d => d.kind == "fanout" && d.durable && !d.autoDelete) = true ∧
    (mainTopology bucketExchange workerExchange queueName).1.map
      ExchangeDecl.name = [bucketExchange, workerExchange] ∧
    (mainTopology bucketExchange workerExchange queueName).2.1 =
      { name := queueName, durable := true, autoDelete := false,
        exclusive := false, noWait := false } ∧
    (mainTopology bucketExchange workerExchange queueName).2.2 =
      { queueName := queueName, routingKey := "", exchange := bucketExchange,
        noWait := false } :=
  ⟨rfl, rfl, rfl, rfl, rfl⟩

/-- C7: after a successful Put of content b1 under filename f followed by a
successful Put of content b2 under the same filename, exactly one object is
stored under f and its content is b2: an existing key is overwritten, never
duplicated. -/
theorem put_overwrites (objects : ObjectSpace) (f : String)
    (r1 r2 : List ReadChunk) (b1 b2 : List Nat)
    (h1 : ioCopy r1 = Except.ok b1) (h2 : ioCopy r2 = Except.ok b2) :
    lookupObject
      (Bucket.Put (Bucket.Put objects ⟨f, r1⟩ none).objects ⟨f, r2⟩ none).objects
        f = some b2 ∧
    ((Bucket.Put (Bucket.Put objects ⟨f, r1⟩ none).objects ⟨f, r2⟩ none).objects.filter
      (fun p => p.1 == f)).length = 1 := by
  simp only [Bucket.Put, h1, h2]
  exact ⟨lookupObject_insertObject _ f b2,
    by rw [filter_insertObject]; rfl⟩

/-- C7 witness: two concrete puts to the same filename leave one object with
the second content. -/
theorem put_overwrites_witness :
    lookupObject
      (Bucket.Put (Bucket.Put [] ⟨"a.jpg", [ReadChunk.bytes [1]]⟩ none).objects
        ⟨"a.jpg", [ReadChunk.bytes [2]]⟩ none).objects ("a.jpg") = some [2] ∧
    ((Bucket.Put (Bucket.Put [] ⟨"a.jpg", [ReadChunk.bytes [1]]⟩ none).objects
        ⟨"a.jpg", [ReadChunk.bytes [2]]⟩ none).objects.filter
      (fun p => p.1 == "a.jpg")).length = 1 :=
  put_overwrites [] "a.jpg" [ReadChunk.bytes [1]] [ReadChunk.bytes [2]]
    [1] [2] rfl rfl

/-- C8: a successful Put of bytes under filename f followed by Get f yields
exactly those bytes, unmodified. -/
theorem put_get_roundtrip (objects : ObjectSpace) (f : String)
    (r : List ReadChunk) (bs : List Nat) (h : ioCopy r = Except.ok bs) :
    Bucket.Get (Bucket.Put objects ⟨f, r⟩ none).objects f = Except.ok bs := by
  simp only [Bucket.Put, h, Bucket.Get, lookupObject_insertObject]

/-- C8 witness: the round trip at a concrete filename and content. -/
theorem put_get_roundtrip_witness :
    Bucket.Get (Bucket.Put [] ⟨"photo123_100.jpg", [ReadChunk.bytes [9, 8]]⟩
      none).objects ("photo123_100.jpg") = Except.ok [9, 8] :=
  put_get_roundtrip [] "photo123_100.jpg" [ReadChunk.bytes [9, 8]] [9, 8] rfl

/-- C9: when the copy of the stream fails, Put returns that copy error with
the backend unchanged and Close not invoked; Close is invoked exactly on the
executions where the copy succeeded. -/
theorem put_close_only_after_copy (objects : ObjectSpace) (image : Thumbnail)
    (closeErr : Option String) :
    (∀ e, ioCopy image.reader = Except.error e →
      Bucket.Put objects image closeErr = ⟨Except.error e, objects, false⟩) ∧
    ((Bucket.Put objects image closeErr).closeInvoked = true ↔
      ∃ bs, ioCopy image.reader = Except.ok bs) := by
  rcases h : ioCopy image.reader with e | bs <;>
    rcases closeErr with _ | ce <;> simp [Bucket.Put, h]

/-- C9 witness: a concrete failing copy returns the copy error without
invoking Close. -/
theorem put_close_only_after_copy_witness :
    Bucket.Put [("old.jpg", [5])] ⟨"a.jpg", [ReadChunk.fail ("eof")]⟩ none =
      ⟨Except.error ("eof"), [("old.jpg", [5])], false⟩ :=
  (put_close_only_after_copy [("old.jpg", [5])] ⟨"a.jpg", [ReadChunk.fail ("eof")]⟩
    none).1 ("eof") rfl

/-- C10: when the HTTP server run loop returns an error while the process is
still running, the goroutine calls log.Fatalln and the whole process exits
immediately with status 1 (non-zero). -/
theorem http_error_fatal (s : ProcState) (e : String)
    (h : s.exitCode = none) :
    (step s (Event.httpErr e)).exitCode = some 1 := by
  simp [step, h, logFatalln]

/-- C10 witness: a concrete bind failure right after startup exits the
process with status 1. -/
theorem http_error_fatal_witness :
    (step initState (Event.httpErr ("listen tcp :8082: address in use"))).exitCode
      = some 1 :=
  http_error_fatal initState ("listen tcp :8082: address in use") rfl
